import Mathlib

/-
Shallow embedding of the openexr-rs binding layer (cessen/openexr-rs).

Source files embedded here:
  src/src/header.rs                      (Header, validate_channel, validate_framebuffer_for_*)
  src/src/frame_buffer.rs                (FrameBuffer, FrameBufferMut, insert_channel)
  src/src/output/scanline_output_file.rs (ScanlineOutputFile, write_pixels, write_pixels_incremental)
  src/src/input/mod.rs                   (InputFile, read_pixels_partial)
  src/src/threads.rs                     (set_global_thread_count)
  src/src/lib.rs                         (an older revision of the crate kept in the repository:
                                          its own FrameBuffer with add_slice, add_interleaved_slice,
                                          add_raw_slice; embedded in namespace lib_rs below)

Modelling conventions:
  - Machine integers u32/usize are modelled as Nat, i32 as Int; the one place where an
    i32-to-u32 cast matters (Header::data_dimensions) uses an explicit mod 2^32 cast.
  - The native C++ library behind the opaque handles is not part of this repository; its
    fallible entry points are modelled as oracle arguments of type Option String
    (none = the native call reports success, some msg = it reports the given error
    message).  Each operation additionally records the list of native entry points it
    invoked, in order, so that properties of the form "fails before touching the native
    codec" are statable.
  - Rust Result::Err(Error::Generic(format!(...))) values are modelled structurally: the
    ErrorMessage inductive has one constructor per format template, carrying exactly the
    values interpolated into that template.  Rust panics (panic!/assert!) are modelled by
    a third outcome constructor carrying a PanicMsg that identifies the panic site.
-/

/-- PixelType from the native bindings: the three sample encodings (unsigned 32-bit int,
16-bit float, 32-bit float). -/
inductive PixelType
  | UINT
  | HALF
  | FLOAT
deriving DecidableEq, Repr

/-- Channel descriptor (src/src/header.rs re-export of the cexr Channel struct):
pixel type, x/y subsampling (c_int), and the p_linear compression hint. -/
structure Channel where
  pixel_type : PixelType
  x_sampling : Int
  y_sampling : Int
  p_linear : Bool
deriving DecidableEq, Repr

/-- Two-component integer vector (CEXR_V2i). -/
structure V2i where
  x : Int
  y : Int
deriving DecidableEq, Repr

/-- Inclusive integer rectangle (Box2i) with min and max corners. -/
structure Box2i where
  min : V2i
  max : V2i
deriving DecidableEq, Repr

/-- Rust cast (i : i32) as u32: reinterpret modulo 2^32. -/
def u32cast (i : Int) : Nat :=
  (i % (2 ^ 32 : Int)).toNat

/-- Header (src/src/header.rs): the fields behind the native handle that the embedded
operations read.  The channel mapping is the ordered (name, Channel) sequence that
Header::channels() iterates over; names are kept unique by the native map. -/
structure Header where
  display_window : Box2i
  data_window : Box2i
  channels : List (String × Channel)
deriving DecidableEq, Repr

/-- Header::data_origin: the min corner of the data window. -/
def Header.data_origin (h : Header) : Int × Int :=
  (h.data_window.min.x, h.data_window.min.y)

/-- Header::data_dimensions: ((max.x - min.x + 1) as u32, (max.y - min.y + 1) as u32). -/
def Header.data_dimensions (h : Header) : Nat × Nat :=
  (u32cast (h.data_window.max.x - h.data_window.min.x + 1),
   u32cast (h.data_window.max.y - h.data_window.min.y + 1))

/-- Header::get_channel: point lookup of a channel by name. -/
def Header.get_channel (h : Header) (name : String) : Option Channel :=
  (h.channels.find? (fun p => decide (p.1 = name))).map Prod.snd

/-- ErrorMessage models the String inside Error::Generic.  Each constructor stands for
one format template in the source, carrying exactly the values interpolated into it.
The fromNative constructor carries a message string produced by the native library. -/
inductive ErrorMessage
  | alreadyWritten (written : Nat)
  | sizeMismatch (fbW fbH imgW imgH : Nat)
  | originMismatch (fbX fbY imgX imgY : Int)
  | missingChannel (name : String)
  | channelTypeMismatch (name : String) (hType fbType : PixelType)
  | channelSamplingMismatch (name : String) (hX hY fbX fbY : Int)
  | allScanlinesWritten
  | tooManyScanlines (fbH remaining : Nat)
  | widthMismatch (fbW imgW : Nat)
  | threadCountTooHigh
  | fromNative (msg : String)
deriving DecidableEq, Repr

/-- Error (src/src/error.rs): a single Generic constructor carrying a description. -/
inductive Error
  | Generic (msg : ErrorMessage)
deriving DecidableEq, Repr

/-- Channel name carried by a validation error message, if any.  The three channel
validation templates interpolate the offending channel name; no other template does. -/
def ErrorMessage.namesChannel : ErrorMessage → Option String
  | .missingChannel name => some name
  | .channelTypeMismatch name _ _ => some name
  | .channelSamplingMismatch name _ _ _ _ => some name
  | _ => none

/-- Channel name carried by an Error, if any. -/
def Error.namesChannel : Error → Option String
  | .Generic m => m.namesChannel

/-- PanicMsg identifies a panic!/assert! site in the source. -/
inductive PanicMsg
  | dataSizeCannotBack (len w h : Nat)
  | readPastLastScanline
  | tooSmallSlice
  | sliceWithoutChannels
  | duplicateChannelName
deriving DecidableEq, Repr

/-- Outcome of a fallible Rust operation: Ok value, Err(Error), or a panic. -/
inductive RunResult (α : Type)
  | ok (val : α)
  | err (e : Error)
  | panicked (msg : PanicMsg)
deriving DecidableEq, Repr

/-- Boolean test for the ok outcome. -/
def RunResult.isOk {α : Type} : RunResult α → Bool
  | .ok _ => true
  | _ => false

/-- Boolean test for the err outcome. -/
def RunResult.isErr {α : Type} : RunResult α → Bool
  | .err _ => true
  | _ => false

/-- Boolean test for the panicked outcome. -/
def RunResult.isPanicked {α : Type} : RunResult α → Bool
  | .panicked _ => true
  | _ => false

/-- Channel name named by an err outcome, if any. -/
def RunResult.errName {α : Type} : RunResult α → Option String
  | .err e => e.namesChannel
  | _ => none

/-- Insert-or-replace on an association list keyed by channel name.  This models both
the native Imf::FrameBuffer channel map written through CEXR_FrameBuffer_insert and the
Rust HashMap::insert used by the older lib.rs revision: an insert under an existing key
replaces the stored value in place, otherwise the new entry is appended. -/
def mapInsert {α : Type} (m : List (String × α)) (k : String) (v : α) : List (String × α) :=
  if m.any (fun p => decide (p.1 = k)) then
    m.map (fun p => if p.1 = k then (k, v) else p)
  else
    m ++ [(k, v)]

/-- FrameBuffer (src/src/frame_buffer.rs).  The source struct stores dimensions plus an
opaque native handle.  Modelled from the spec: the channel registry behind the handle
(one slice description per name, read back by the method _get_channel used in
src/src/header.rs), and the origin read by ScanlineOutputFile::write_pixels, are absent
from the sources under src; per spec section 3 and 4.2 a frame buffer records, for each
channel name, a slice description with pixel type and subsampling, and has an origin
that defaults to (0, 0).  Slice fields never read by any embedded operation (base
pointer, strides, fill value, tile flags) are omitted; p_linear is fixed to true in
registered entries since no slice carries a linearity hint. -/
structure FrameBuffer where
  dimensions : Nat × Nat
  origin : Int × Int
  channels : List (String × Channel)
deriving DecidableEq, Repr

/-- FrameBuffer::new: empty frame buffer of the given size, origin (0, 0). -/
def FrameBuffer.new (width height : Nat) : FrameBuffer :=
  ⟨(width, height), (0, 0), []⟩

/-- Modelled from the spec: the method _get_channel called by the validation code in
src/src/header.rs (not defined under src) — lookup of the slice description registered
under the given channel name. -/
def FrameBuffer.getChannel (fb : FrameBuffer) (name : String) : Option Channel :=
  (fb.channels.find? (fun p => decide (p.1 = name))).map Prod.snd

/-- FrameBuffer::insert_channel (src/src/frame_buffer.rs lines 75 to 93): panics when
the backing slice length differs from width * height, otherwise registers the channel
(through insert_raw, sampling (1, 1)) under the given name.  The slice element type T
is represented by its PixelType and the slice by its element count. -/
def FrameBuffer.insert_channel (fb : FrameBuffer) (name : String) (dataLen : Nat)
    (ty : PixelType) : RunResult FrameBuffer :=
  if dataLen ≠ fb.dimensions.1 * fb.dimensions.2 then
    .panicked (.dataSizeCannotBack dataLen fb.dimensions.1 fb.dimensions.2)
  else
    .ok { fb with channels := mapInsert fb.channels name ⟨ty, 1, 1, true⟩ }

/-- FrameBufferMut (src/src/frame_buffer.rs): wraps a FrameBuffer and derefs to it. -/
structure FrameBufferMut where
  frame_buffer : FrameBuffer
deriving DecidableEq, Repr

/-- FrameBufferMut::new. -/
def FrameBufferMut.new (width height : Nat) : FrameBufferMut :=
  ⟨FrameBuffer.new width height⟩

/-- Deref: dimensions of the wrapped FrameBuffer. -/
def FrameBufferMut.dimensions (m : FrameBufferMut) : Nat × Nat :=
  m.frame_buffer.dimensions

/-- Deref: channel lookup on the wrapped FrameBuffer. -/
def FrameBufferMut.getChannel (m : FrameBufferMut) (name : String) : Option Channel :=
  m.frame_buffer.getChannel name

/-- FrameBufferMut::insert_channel (src/src/frame_buffer.rs lines 222 to 244): same
length check as the immutable variant; the f64 fill value forwarded to the native slice
is never read by any embedded operation and is omitted. -/
def FrameBufferMut.insert_channel (m : FrameBufferMut) (name : String) (dataLen : Nat)
    (ty : PixelType) : RunResult FrameBufferMut :=
  if dataLen ≠ m.dimensions.1 * m.dimensions.2 then
    .panicked (.dataSizeCannotBack dataLen m.dimensions.1 m.dimensions.2)
  else
    .ok ⟨{ m.frame_buffer with
           channels := mapInsert m.frame_buffer.channels name ⟨ty, 1, 1, true⟩ }⟩

/-- Header::validate_channel (src/src/header.rs lines 330 to 349): pixel types must
match, then x/y sampling must match; the error messages interpolate the channel name
and both conflicting values. -/
def Header.validate_channel (name : String) (h_chan fb_chan : Channel) : RunResult Unit :=
  if fb_chan.pixel_type ≠ h_chan.pixel_type then
    .err (.Generic (.channelTypeMismatch name h_chan.pixel_type fb_chan.pixel_type))
  else if fb_chan.x_sampling ≠ h_chan.x_sampling ∨ fb_chan.y_sampling ≠ h_chan.y_sampling then
    .err (.Generic (.channelSamplingMismatch name h_chan.x_sampling h_chan.y_sampling
      fb_chan.x_sampling fb_chan.y_sampling))
  else
    .ok ()

/-- Loop body of Header::validate_framebuffer_for_output: iterate over the header
channels; a channel absent from the frame buffer is an error, a present one is checked
with validate_channel. -/
def validateChannelsOutput (fb : FrameBuffer) : List (String × Channel) → RunResult Unit
  | [] => .ok ()
  | p :: rest =>
    match fb.getChannel p.1 with
    | some fb_channel =>
      match Header.validate_channel p.1 p.2 fb_channel with
      | .ok _ => validateChannelsOutput fb rest
      | .err e => .err e
      | .panicked m => .panicked m
    | none => .err (.Generic (.missingChannel p.1))

/-- Header::validate_framebuffer_for_output (src/src/header.rs lines 289 to 303). -/
def Header.validate_framebuffer_for_output (h : Header) (fb : FrameBuffer) : RunResult Unit :=
  validateChannelsOutput fb h.channels

/-- Loop body of Header::validate_framebuffer_for_input: iterate over the header
channels; a channel absent from the frame buffer is skipped, a present one is checked
with validate_channel. -/
def validateChannelsInput (fb : FrameBufferMut) : List (String × Channel) → RunResult Unit
  | [] => .ok ()
  | p :: rest =>
    match fb.getChannel p.1 with
    | some fb_channel =>
      match Header.validate_channel p.1 p.2 fb_channel with
      | .ok _ => validateChannelsInput fb rest
      | .err e => .err e
      | .panicked m => .panicked m
    | none => validateChannelsInput fb rest

/-- Header::validate_framebuffer_for_input (src/src/header.rs lines 305 to 316). -/
def Header.validate_framebuffer_for_input (h : Header) (fb : FrameBufferMut) : RunResult Unit :=
  validateChannelsInput fb h.channels

/-- ScanlineOutputFile (src/src/output/scanline_output_file.rs): the state the embedded
write operations read and update — the header behind the handle and the
scanlines_written counter (u32, starts at 0). -/
structure ScanlineOutputFile where
  header : Header
  scanlines_written : Nat
deriving DecidableEq, Repr

/-- Result of one write call: the returned Result, the file state after the call, the
native entry points invoked (in order), and the scanline count passed to
CEXR_OutputFile_write_pixels when that entry point was invoked. -/
structure WriteStep where
  result : RunResult Unit
  file : ScanlineOutputFile
  native_trace : List String
  write_arg : Option Nat
deriving DecidableEq, Repr

/-- ScanlineOutputFile::write_pixels (src/src/output/scanline_output_file.rs lines 132
to 190).  Guards in source order: scanlines_written must be 0, framebuffer dimensions
and origin must equal the data window, then validate_framebuffer_for_output; only then
are the native entry points invoked.  On native success the counter is set to the image
height.  setErr and writeErr are the oracles for the two fallible native calls. -/
def ScanlineOutputFile.write_pixels (f : ScanlineOutputFile) (fb : FrameBuffer)
    (setErr writeErr : Option String) : WriteStep :=
  if f.scanlines_written ≠ 0 then
    ⟨.err (.Generic (.alreadyWritten f.scanlines_written)), f, [], none⟩
  else if f.header.data_dimensions ≠ fb.dimensions then
    ⟨.err (.Generic (.sizeMismatch fb.dimensions.1 fb.dimensions.2
      f.header.data_dimensions.1 f.header.data_dimensions.2)), f, [], none⟩
  else if f.header.data_origin ≠ fb.origin then
    ⟨.err (.Generic (.originMismatch fb.origin.1 fb.origin.2
      f.header.data_origin.1 f.header.data_origin.2)), f, [], none⟩
  else
    match f.header.validate_framebuffer_for_output fb with
    | .err e => ⟨.err e, f, [], none⟩
    | .panicked m => ⟨.panicked m, f, [], none⟩
    | .ok _ =>
      match setErr with
      | some msg => ⟨.err (.Generic (.fromNative msg)), f,
          ["CEXR_OutputFile_set_framebuffer"], none⟩
      | none =>
        match writeErr with
        | some msg => ⟨.err (.Generic (.fromNative msg)), f,
            ["CEXR_OutputFile_set_framebuffer", "CEXR_OutputFile_write_pixels"],
            some fb.dimensions.2⟩
        | none =>
          ⟨.ok (), { f with scanlines_written := f.header.data_dimensions.2 },
            ["CEXR_OutputFile_set_framebuffer", "CEXR_OutputFile_write_pixels"],
            some fb.dimensions.2⟩

/-- ScanlineOutputFile::write_pixels_incremental (src/src/output/scanline_output_file.rs
lines 215 to 278).  Guards in source order: the counter must not already equal the image
height, the framebuffer height must not exceed the remaining scanlines, the framebuffer
width must equal the image width, then validate_framebuffer_for_output.  The u32
subtraction (height - scanlines_written) is modelled with Nat subtraction; it is guarded
by the first check together with the invariant that the counter never exceeds the image
height.  On native success the counter advances by the framebuffer height. -/
def ScanlineOutputFile.write_pixels_incremental (f : ScanlineOutputFile) (fb : FrameBuffer)
    (setErr writeErr : Option String) : WriteStep :=
  if f.scanlines_written = f.header.data_dimensions.2 then
    ⟨.err (.Generic .allScanlinesWritten), f, [], none⟩
  else if fb.dimensions.2 > f.header.data_dimensions.2 - f.scanlines_written then
    ⟨.err (.Generic (.tooManyScanlines fb.dimensions.2
      (f.header.data_dimensions.2 - f.scanlines_written))), f, [], none⟩
  else if fb.dimensions.1 ≠ f.header.data_dimensions.1 then
    ⟨.err (.Generic (.widthMismatch fb.dimensions.1 f.header.data_dimensions.1)), f, [], none⟩
  else
    match f.header.validate_framebuffer_for_output fb with
    | .err e => ⟨.err e, f, [], none⟩
    | .panicked m => ⟨.panicked m, f, [], none⟩
    | .ok _ =>
      match setErr with
      | some msg => ⟨.err (.Generic (.fromNative msg)), f,
          ["CEXR_FrameBuffer_copy_and_offset_scanlines", "CEXR_OutputFile_set_framebuffer",
           "CEXR_FrameBuffer_delete"], none⟩
      | none =>
        match writeErr with
        | some msg => ⟨.err (.Generic (.fromNative msg)), f,
            ["CEXR_FrameBuffer_copy_and_offset_scanlines", "CEXR_OutputFile_set_framebuffer",
             "CEXR_FrameBuffer_delete", "CEXR_OutputFile_write_pixels"],
            some fb.dimensions.2⟩
        | none =>
          ⟨.ok (), { f with scanlines_written := f.scanlines_written + fb.dimensions.2 },
            ["CEXR_FrameBuffer_copy_and_offset_scanlines", "CEXR_OutputFile_set_framebuffer",
             "CEXR_FrameBuffer_delete", "CEXR_OutputFile_write_pixels"],
            some fb.dimensions.2⟩

/-- InputFile (src/src/input/mod.rs): the state read by the embedded read operation is
the header behind the handle; reading does not mutate any modelled state. -/
structure InputFile where
  header : Header
deriving DecidableEq, Repr

/-- Result of one read call: the returned value (scanline count on success), and the
native entry points invoked. -/
structure ReadStep where
  result : RunResult Nat
  native_trace : List String
deriving DecidableEq, Repr

/-- InputFile::read_pixels_partial (src/src/input/mod.rs lines 232 to 287).  The first
statement is assert!(starting_scanline < data_dimensions().1) — a panic, not a returned
error.  Then the framebuffer width must equal the image width, then
validate_framebuffer_for_input; only then are native entry points invoked.  On success
it returns min(image height - starting_scanline, framebuffer height). -/
def InputFile.read_pixels_partial (f : InputFile) (starting_scanline : Nat)
    (fb : FrameBufferMut) (setErr readErr : Option String) : ReadStep :=
  if ¬ starting_scanline < f.header.data_dimensions.2 then
    ⟨.panicked .readPastLastScanline, []⟩
  else if f.header.data_dimensions.1 ≠ fb.dimensions.1 then
    ⟨.err (.Generic (.widthMismatch fb.dimensions.1 f.header.data_dimensions.1)), []⟩
  else
    match f.header.validate_framebuffer_for_input fb with
    | .err e => ⟨.err e, []⟩
    | .panicked m => ⟨.panicked m, []⟩
    | .ok _ =>
      match setErr with
      | some msg => ⟨.err (.Generic (.fromNative msg)),
          ["CEXR_FrameBuffer_copy_and_offset_scanlines", "CEXR_InputFile_set_framebuffer",
           "CEXR_FrameBuffer_delete"]⟩
      | none =>
        match readErr with
        | some msg => ⟨.err (.Generic (.fromNative msg)),
            ["CEXR_FrameBuffer_copy_and_offset_scanlines", "CEXR_InputFile_set_framebuffer",
             "CEXR_FrameBuffer_delete", "CEXR_InputFile_read_pixels"]⟩
        | none =>
          ⟨.ok (min (f.header.data_dimensions.2 - starting_scanline) fb.dimensions.2),
            ["CEXR_FrameBuffer_copy_and_offset_scanlines", "CEXR_InputFile_set_framebuffer",
             "CEXR_FrameBuffer_delete", "CEXR_InputFile_read_pixels"]⟩

/-- Maximum value of the platform c_int (i32 on every platform the crate builds for). -/
def c_int_max_value : Nat := 2 ^ 31 - 1

/-- set_global_thread_count (src/src/threads.rs lines 22 to 42): rejects a count above
c_int::max_value() before any native call, otherwise forwards the count to
CEXR_set_global_thread_count and mirrors the native outcome.  The returned Bool records
whether the native entry point was invoked; nativeErr is its oracle. -/
def set_global_thread_count (thread_count : Nat) (nativeErr : Option String) :
    RunResult Unit × Bool :=
  if thread_count > c_int_max_value then
    (.err (.Generic .threadCountTooHigh), false)
  else
    match nativeErr with
    | some msg => (.err (.Generic (.fromNative msg)), true)
    | none => (.ok (), true)

namespace lib_rs

/-- SliceDescription (src/src/lib.rs lines 146 to 153): in-memory layout of one channel.
The start and stride fields are byte counts (usize). -/
structure SliceDescription where
  pixel_type : PixelType
  subsampling : Nat × Nat
  start : Nat
  stride : Nat × Nat
  tile_coords : Bool × Bool
deriving DecidableEq, Repr

/-- FrameBuffer of the older lib.rs revision (src/src/lib.rs lines 161 to 165):
dimensions, a HashMap from channel name to (backing buffer index, SliceDescription)
— modelled as the association list maintained by mapInsert, whose keys stay unique —
and the buffers vector, represented by its length (only indices into it are stored).
The f64 default fill value stored with each channel is never read by any embedded
operation and is omitted. -/
structure FrameBuffer where
  dimensions : Nat × Nat
  channels : List (String × (Nat × SliceDescription))
  buffers : Nat
deriving DecidableEq, Repr

/-- FrameBuffer::new (src/src/lib.rs lines 168 to 174). -/
def FrameBuffer.new (width height : Nat) : FrameBuffer :=
  ⟨(width, height), [], 0⟩

/-- Slice descriptions produced by the insertion loop of add_interleaved_slice: channel
number i starts at byte size_of(T) * i with stride (size_of(T), size_of(T) * width * n)
where n is the number of channels sharing the buffer. -/
def interleavedDescs (elemSize width n : Nat) (ty : PixelType) :
    List String → Nat → List (String × SliceDescription)
  | [], _ => []
  | name :: rest, i =>
    (name, ⟨ty, (1, 1), elemSize * i, (elemSize, elemSize * width * n), (false, false)⟩)
      :: interleavedDescs elemSize width n ty rest (i + 1)

/-- Insert a list of (name, description) pairs, all referring to buffer index bufIdx,
into the channel map (HashMap::insert replaces an existing entry). -/
def insertAll (m : List (String × (Nat × SliceDescription))) (bufIdx : Nat) :
    List (String × SliceDescription) → List (String × (Nat × SliceDescription))
  | [] => m
  | d :: rest => insertAll (mapInsert m d.1 (bufIdx, d.2)) bufIdx rest

/-- FrameBuffer::add_interleaved_slice (src/src/lib.rs lines 184 to 215): panics when
the channel list is empty or when data.len() / channels.len() is below width * height;
otherwise registers every channel (replacing same-named entries) against a fresh buffer
index and pushes the buffer.  The slice data : &[T] is represented by its element count
and the element size and pixel type of T. -/
def FrameBuffer.add_interleaved_slice (fb : FrameBuffer) (dataLen elemSize : Nat)
    (ty : PixelType) (channels : List String) : RunResult FrameBuffer :=
  if channels.length = 0 then
    .panicked .sliceWithoutChannels
  else if dataLen / channels.length < fb.dimensions.1 * fb.dimensions.2 then
    .panicked .tooSmallSlice
  else
    .ok { fb with
          channels := insertAll fb.channels fb.buffers
            (interleavedDescs elemSize fb.dimensions.1 channels.length ty channels 0),
          buffers := fb.buffers + 1 }

/-- FrameBuffer::add_slice (src/src/lib.rs lines 176 to 182): panics when data.len() is
below width * height, then delegates to add_interleaved_slice with a single channel. -/
def FrameBuffer.add_slice (fb : FrameBuffer) (dataLen elemSize : Nat) (ty : PixelType)
    (name : String) : RunResult FrameBuffer :=
  if dataLen < fb.dimensions.1 * fb.dimensions.2 then
    .panicked .tooSmallSlice
  else
    fb.add_interleaved_slice dataLen elemSize ty [name]

/-- FrameBuffer::add_raw_slice (src/src/lib.rs lines 268 to 290): first panics if any of
the given descriptions uses a name already registered in the channel map, then inserts
all of them against a fresh buffer index and pushes the buffer. -/
def FrameBuffer.add_raw_slice (fb : FrameBuffer)
    (descriptions : List (String × SliceDescription)) : RunResult FrameBuffer :=
  if descriptions.any (fun d => fb.channels.any (fun p => decide (p.1 = d.1))) then
    .panicked .duplicateChannelName
  else
    .ok { fb with
          channels := insertAll fb.channels fb.buffers descriptions,
          buffers := fb.buffers + 1 }

/-- One channel-insertion operation on the lib.rs FrameBuffer. -/
inductive FbOp
  | addSlice (dataLen elemSize : Nat) (ty : PixelType) (name : String)
  | addInterleavedSlice (dataLen elemSize : Nat) (ty : PixelType) (names : List String)
  | addRawSlice (descs : List (String × SliceDescription))

/-- Apply one insertion operation. -/
def applyOp (fb : FrameBuffer) : FbOp → RunResult FrameBuffer
  | .addSlice dataLen elemSize ty name => fb.add_slice dataLen elemSize ty name
  | .addInterleavedSlice dataLen elemSize ty names =>
      fb.add_interleaved_slice dataLen elemSize ty names
  | .addRawSlice descs => fb.add_raw_slice descs

/-- Apply a sequence of insertion operations; a panicking operation aborts the process,
so no further operation runs and the state stops evolving. -/
def applyOps (fb : FrameBuffer) : List FbOp → FrameBuffer
  | [] => fb
  | op :: rest =>
    match applyOp fb op with
    | .ok fb2 => applyOps fb2 rest
    | _ => fb

end lib_rs

/-- Spec-side predicate (spec sections 4.3 and 7, write path): a channel declared by the
Header is offending for output when the FrameBuffer lacks it, or declares it with a
different pixel type or subsampling. -/
def offendingOutput (fb : FrameBuffer) (p : String × Channel) : Bool :=
  match fb.getChannel p.1 with
  | none => true
  | some fbc =>
    ! decide (fbc.pixel_type = p.2.pixel_type ∧ fbc.x_sampling = p.2.x_sampling ∧
      fbc.y_sampling = p.2.y_sampling)

/-- Spec-side predicate (spec section 4.2, read path): a channel declared by both the
Header and the FrameBufferMut mismatches when pixel type or subsampling differ; a
channel declared by the Header alone never mismatches. -/
def sharedMismatchInput (fb : FrameBufferMut) (p : String × Channel) : Bool :=
  match fb.getChannel p.1 with
  | none => false
  | some fbc =>
    ! decide (fbc.pixel_type = p.2.pixel_type ∧ fbc.x_sampling = p.2.x_sampling ∧
      fbc.y_sampling = p.2.y_sampling)

lemma validate_channel_ok_iff (name : String) (hc fbc : Channel) :
    Header.validate_channel name hc fbc = .ok () ↔
      (fbc.pixel_type = hc.pixel_type ∧ fbc.x_sampling = hc.x_sampling ∧
       fbc.y_sampling = hc.y_sampling) := by
  unfold Header.validate_channel
  split_ifs with h1 h2
  · simp only [reduceCtorEq, false_iff]
    tauto
  · simp only [reduceCtorEq, false_iff]
    tauto
  · simp only [true_iff]
    push_neg at h1 h2
    exact ⟨h1, h2.1, h2.2⟩

lemma validate_channel_ne_panicked (name : String) (hc fbc : Channel) (m : PanicMsg) :
    Header.validate_channel name hc fbc ≠ .panicked m := by
  unfold Header.validate_channel
  split_ifs <;> simp

lemma validate_channel_err (name : String) (hc fbc : Channel) (e : Error)
    (h : Header.validate_channel name hc fbc = .err e) :
    (fbc.pixel_type ≠ hc.pixel_type ∧
      e = .Generic (.channelTypeMismatch name hc.pixel_type fbc.pixel_type)) ∨
    (fbc.pixel_type = hc.pixel_type ∧
      (fbc.x_sampling ≠ hc.x_sampling ∨ fbc.y_sampling ≠ hc.y_sampling) ∧
      e = .Generic (.channelSamplingMismatch name hc.x_sampling hc.y_sampling
        fbc.x_sampling fbc.y_sampling)) := by
  unfold Header.validate_channel at h
  split_ifs at h with h1 h2
  · exact Or.inl ⟨h1, by injection h with hh; exact hh.symm⟩
  · refine Or.inr ⟨by tauto, by tauto, by injection h with hh; exact hh.symm⟩

lemma validateChannelsOutput_ok_iff (fb : FrameBuffer) (l : List (String × Channel)) :
    validateChannelsOutput fb l = .ok () ↔ l.any (offendingOutput fb) = false := by
  induction l with
  | nil => simp [validateChannelsOutput]
  | cons p rest ih =>
    cases hg : fb.getChannel p.1 with
    | none =>
      simp only [validateChannelsOutput, hg, List.any_cons, offendingOutput]
      simp [hg]
    | some fbc =>
      cases hv : Header.validate_channel p.1 p.2 fbc with
      | ok val =>
        cases val
        have hmatch := (validate_channel_ok_iff p.1 p.2 fbc).mp hv
        simp only [validateChannelsOutput, hg, hv, List.any_cons, offendingOutput]
        simp [hg, hmatch.1, hmatch.2.1, hmatch.2.2, ih]
      | err e =>
        have hmatch : ¬ (fbc.pixel_type = p.2.pixel_type ∧ fbc.x_sampling = p.2.x_sampling ∧
            fbc.y_sampling = p.2.y_sampling) := by
          intro hc
          have := (validate_channel_ok_iff p.1 p.2 fbc).mpr hc
          rw [this] at hv
          cases hv
        simp only [validateChannelsOutput, hg, hv, List.any_cons, offendingOutput]
        simp [hg, hmatch]
      | panicked m => exact absurd hv (validate_channel_ne_panicked p.1 p.2 fbc m)

lemma validateChannelsOutput_err_names (fb : FrameBuffer) (l : List (String × Channel))
    (h : l.any (offendingOutput fb) = true) :
    ∃ e, validateChannelsOutput fb l = .err e ∧
      l.any (fun p => offendingOutput fb p && decide (e.namesChannel = some p.1)) = true := by
  induction l with
  | nil => cases h
  | cons p rest ih =>
    cases hg : fb.getChannel p.1 with
    | none =>
      refine ⟨.Generic (.missingChannel p.1), ?_, ?_⟩
      · simp [validateChannelsOutput, hg]
      · simp [offendingOutput, hg, Error.namesChannel, ErrorMessage.namesChannel]
    | some fbc =>
      cases hv : Header.validate_channel p.1 p.2 fbc with
      | ok val =>
        cases val
        have hmatch := (validate_channel_ok_iff p.1 p.2 fbc).mp hv
        have hoff : offendingOutput fb p = false := by
          simp [offendingOutput, hg, hmatch.1, hmatch.2.1, hmatch.2.2]
        have hrest : rest.any (offendingOutput fb) = true := by
          simpa [hoff] using h
        obtain ⟨e, he, hany⟩ := ih hrest
        refine ⟨e, ?_, ?_⟩
        · simp [validateChannelsOutput, hg, hv, he]
        · simp [List.any_cons, hany]
      | err e =>
        have hmatch : ¬ (fbc.pixel_type = p.2.pixel_type ∧ fbc.x_sampling = p.2.x_sampling ∧
            fbc.y_sampling = p.2.y_sampling) := by
          intro hc
          have := (validate_channel_ok_iff p.1 p.2 fbc).mpr hc
          rw [this] at hv
          cases hv
        have hname : e.namesChannel = some p.1 := by
          rcases validate_channel_err p.1 p.2 fbc e hv with ⟨_, rfl⟩ | ⟨_, _, rfl⟩ <;>
            simp [Error.namesChannel, ErrorMessage.namesChannel]
        refine ⟨e, ?_, ?_⟩
        · simp [validateChannelsOutput, hg, hv]
        · simp [List.any_cons, offendingOutput, hg, hname]
          tauto
      | panicked m => exact absurd hv (validate_channel_ne_panicked p.1 p.2 fbc m)

lemma validateChannelsInput_ok_iff (fb : FrameBufferMut) (l : List (String × Channel)) :
    validateChannelsInput fb l = .ok () ↔ l.any (sharedMismatchInput fb) = false := by
  induction l with
  | nil => simp [validateChannelsInput]
  | cons p rest ih =>
    cases hg : fb.getChannel p.1 with
    | none =>
      simp only [validateChannelsInput, hg, List.any_cons, sharedMismatchInput]
      simp [hg, ih]
    | some fbc =>
      cases hv : Header.validate_channel p.1 p.2 fbc with
      | ok val =>
        cases val
        have hmatch := (validate_channel_ok_iff p.1 p.2 fbc).mp hv
        simp only [validateChannelsInput, hg, hv, List.any_cons, sharedMismatchInput]
        simp [hg, hmatch.1, hmatch.2.1, hmatch.2.2, ih]
      | err e =>
        have hmatch : ¬ (fbc.pixel_type = p.2.pixel_type ∧ fbc.x_sampling = p.2.x_sampling ∧
            fbc.y_sampling = p.2.y_sampling) := by
          intro hc
          have := (validate_channel_ok_iff p.1 p.2 fbc).mpr hc
          rw [this] at hv
          cases hv
        simp only [validateChannelsInput, hg, hv, List.any_cons, sharedMismatchInput]
        simp [hg, hmatch]
      | panicked m => exact absurd hv (validate_channel_ne_panicked p.1 p.2 fbc m)

lemma validateChannelsInput_err (fb : FrameBufferMut) (l : List (String × Channel))
    (e : Error) (h : validateChannelsInput fb l = .err e) :
    ∃ p ∈ l, ∃ fbc, fb.getChannel p.1 = some fbc ∧
      ((fbc.pixel_type ≠ p.2.pixel_type ∧
         e = .Generic (.channelTypeMismatch p.1 p.2.pixel_type fbc.pixel_type)) ∨
       (fbc.pixel_type = p.2.pixel_type ∧
         (fbc.x_sampling ≠ p.2.x_sampling ∨ fbc.y_sampling ≠ p.2.y_sampling) ∧
         e = .Generic (.channelSamplingMismatch p.1 p.2.x_sampling p.2.y_sampling
           fbc.x_sampling fbc.y_sampling))) := by
  induction l with
  | nil => cases h
  | cons p rest ih =>
    cases hg : fb.getChannel p.1 with
    | none =>
      simp only [validateChannelsInput, hg] at h
      obtain ⟨q, hq, rest_spec⟩ := ih h
      exact ⟨q, List.mem_cons_of_mem p hq, rest_spec⟩
    | some fbc =>
      cases hv : Header.validate_channel p.1 p.2 fbc with
      | ok val =>
        cases val
        simp only [validateChannelsInput, hg, hv] at h
        obtain ⟨q, hq, rest_spec⟩ := ih h
        exact ⟨q, List.mem_cons_of_mem p hq, rest_spec⟩
      | err e0 =>
        simp only [validateChannelsInput, hg, hv] at h
        injection h with he
        subst he
        exact ⟨p, List.mem_cons_self p rest, fbc, hg, validate_channel_err p.1 p.2 fbc e0 hv⟩
      | panicked m => exact absurd hv (validate_channel_ne_panicked p.1 p.2 fbc m)

lemma map_fst_replaceEntry {α : Type} (m : List (String × α)) (k : String) (v : α) :
    (m.map (fun p => if p.1 = k then (k, v) else p)).map Prod.fst = m.map Prod.fst := by
  induction m with
  | nil => rfl
  | cons q rest ih =>
    by_cases hq : q.1 = k
    · simp [hq, ih]
    · simp [hq, ih]

lemma mapInsert_map_fst {α : Type} (m : List (String × α)) (k : String) (v : α) :
    (mapInsert m k v).map Prod.fst =
      if m.any (fun p => decide (p.1 = k)) then m.map Prod.fst
      else m.map Prod.fst ++ [k] := by
  unfold mapInsert
  split_ifs with h
  · exact map_fst_replaceEntry m k v
  · simp

lemma mapInsert_keys_nodup {α : Type} (m : List (String × α)) (k : String) (v : α)
    (h : (m.map Prod.fst).Nodup) : ((mapInsert m k v).map Prod.fst).Nodup := by
  rw [mapInsert_map_fst]
  split_ifs with hmem
  · exact h
  · have hk : k ∉ m.map Prod.fst := by
      intro hkmem
      rw [List.mem_map] at hkmem
      obtain ⟨p, hp, hfst⟩ := hkmem
      apply hmem
      rw [List.any_eq_true]
      exact ⟨p, hp, by simp [hfst]⟩
    simp [List.nodup_append, h, hk]

namespace lib_rs

lemma insertAll_keys_nodup (m : List (String × (Nat × SliceDescription))) (bufIdx : Nat)
    (descs : List (String × SliceDescription)) (h : (m.map Prod.fst).Nodup) :
    ((insertAll m bufIdx descs).map Prod.fst).Nodup := by
  induction descs generalizing m with
  | nil => exact h
  | cons d rest ih =>
    exact ih (mapInsert m d.1 (bufIdx, d.2)) (mapInsert_keys_nodup m d.1 (bufIdx, d.2) h)

lemma add_interleaved_slice_keys_nodup (fb fb2 : FrameBuffer) (dataLen elemSize : Nat)
    (ty : PixelType) (names : List String)
    (h : (fb.channels.map Prod.fst).Nodup)
    (happ : fb.add_interleaved_slice dataLen elemSize ty names = .ok fb2) :
    (fb2.channels.map Prod.fst).Nodup := by
  unfold FrameBuffer.add_interleaved_slice at happ
  split_ifs at happ
  injection happ with happ2
  subst happ2
  exact insertAll_keys_nodup fb.channels fb.buffers _ h

lemma add_slice_keys_nodup (fb fb2 : FrameBuffer) (dataLen elemSize : Nat)
    (ty : PixelType) (name : String)
    (h : (fb.channels.map Prod.fst).Nodup)
    (happ : fb.add_slice dataLen elemSize ty name = .ok fb2) :
    (fb2.channels.map Prod.fst).Nodup := by
  unfold FrameBuffer.add_slice at happ
  split_ifs at happ
  exact add_interleaved_slice_keys_nodup fb fb2 dataLen elemSize ty [name] h happ

lemma add_raw_slice_keys_nodup (fb fb2 : FrameBuffer)
    (descs : List (String × SliceDescription))
    (h : (fb.channels.map Prod.fst).Nodup)
    (happ : fb.add_raw_slice descs = .ok fb2) :
    (fb2.channels.map Prod.fst).Nodup := by
  unfold FrameBuffer.add_raw_slice at happ
  split_ifs at happ
  injection happ with happ2
  subst happ2
  exact insertAll_keys_nodup fb.channels fb.buffers _ h

lemma applyOp_ok_keys_nodup (fb fb2 : FrameBuffer) (op : FbOp)
    (h : (fb.channels.map Prod.fst).Nodup) (happ : applyOp fb op = .ok fb2) :
    (fb2.channels.map Prod.fst).Nodup := by
  cases op with
  | addSlice dataLen elemSize ty name =>
    exact add_slice_keys_nodup fb fb2 dataLen elemSize ty name h happ
  | addInterleavedSlice dataLen elemSize ty names =>
    exact add_interleaved_slice_keys_nodup fb fb2 dataLen elemSize ty names h happ
  | addRawSlice descs =>
    exact add_raw_slice_keys_nodup fb fb2 descs h happ

lemma applyOps_keys_nodup (ops : List FbOp) (fb : FrameBuffer)
    (h : (fb.channels.map Prod.fst).Nodup) :
    (((applyOps fb ops).channels).map Prod.fst).Nodup := by
  induction ops generalizing fb with
  | nil => exact h
  | cons op rest ih =>
    cases happ : applyOp fb op with
    | ok fb2 =>
      simp only [applyOps, happ]
      exact ih fb2 (applyOp_ok_keys_nodup fb fb2 op h happ)
    | err e => simpa only [applyOps, happ] using h
    | panicked m => simpa only [applyOps, happ] using h

end lib_rs

/-- Channel produced by Header::add_channel with PixelType FLOAT: sampling (1, 1),
p_linear true. -/
def chF : Channel := ⟨.FLOAT, 1, 1, true⟩

/-- Channel with PixelType HALF, sampling (1, 1). -/
def chH : Channel := ⟨.HALF, 1, 1, true⟩

/-- Header for a 2 x 2 image (set_resolution 2 2) declaring one FLOAT channel R. -/
def header2x2R : Header :=
  ⟨⟨⟨0, 0⟩, ⟨1, 1⟩⟩, ⟨⟨0, 0⟩, ⟨1, 1⟩⟩, [("R", chF)]⟩

/-- Frame buffer 2 x 2 at origin (0, 0) with a matching R channel. -/
def fbR2x2 : FrameBuffer := ⟨(2, 2), (0, 0), [("R", chF)]⟩

/-- Frame buffer 2 x 2 with the matching R channel plus an extra channel Z that the
header does not declare. -/
def fbRZ2x2 : FrameBuffer := ⟨(2, 2), (0, 0), [("R", chF), ("Z", chF)]⟩

/-- Frame buffer 1 x 1 with no channels (wrong size for header2x2R, missing R). -/
def fbEmpty1x1 : FrameBuffer := ⟨(1, 1), (0, 0), []⟩

/-- Frame buffer 2 x 2 with no channels (right size for header2x2R, missing R). -/
def fbEmpty2x2 : FrameBuffer := ⟨(2, 2), (0, 0), []⟩

/-- Frame buffer 2 x 1 with a matching R channel (half-height chunk for incremental
writes against header2x2R). -/
def fbR2x1 : FrameBuffer := ⟨(2, 1), (0, 0), [("R", chF)]⟩

/-- Fresh output file over header2x2R (no scanlines written). -/
def fileFresh : ScanlineOutputFile := ⟨header2x2R, 0⟩

/-- Output file over header2x2R with one scanline already written. -/
def fileOne : ScanlineOutputFile := ⟨header2x2R, 1⟩

/-- Output file over header2x2R with all scanlines written (counter at image height). -/
def fileDone : ScanlineOutputFile := ⟨header2x2R, 2⟩

/-- Input file over header2x2R. -/
def inputFile2x2 : InputFile := ⟨header2x2R⟩

/-- Mutable frame buffer 2 x 2 with no channels. -/
def fbmEmpty2x2 : FrameBufferMut := ⟨fbEmpty2x2⟩

/-- Mutable frame buffer 2 x 2 whose R channel has PixelType HALF (type mismatch
against header2x2R). -/
def fbmH2x2 : FrameBufferMut := ⟨⟨(2, 2), (0, 0), [("R", chH)]⟩⟩

/-- Mutable frame buffer 2 x 2 declaring only a channel Z that header2x2R lacks. -/
def fbmZ2x2 : FrameBufferMut := ⟨⟨(2, 2), (0, 0), [("Z", chF)]⟩⟩

lemma write_pixels_ok_or_unchanged (f : ScanlineOutputFile) (fb : FrameBuffer)
    (setErr writeErr : Option String) :
    (f.write_pixels fb setErr writeErr).result.isOk = true ∨
      (f.write_pixels fb setErr writeErr).file = f := by
  unfold ScanlineOutputFile.write_pixels
  split_ifs
  · right; rfl
  · right; rfl
  · right; rfl
  · cases hv : f.header.validate_framebuffer_for_output fb with
    | ok val =>
      cases val
      simp only [hv]
      cases setErr with
      | some msg => right; rfl
      | none =>
        cases writeErr with
        | some msg => right; rfl
        | none => left; rfl
    | err e => simp only [hv]; right; trivial
    | panicked m => simp only [hv]; right; trivial

lemma write_pixels_incremental_ok_or_unchanged (f : ScanlineOutputFile) (fb : FrameBuffer)
    (setErr writeErr : Option String) :
    (f.write_pixels_incremental fb setErr writeErr).result.isOk = true ∨
      (f.write_pixels_incremental fb setErr writeErr).file = f := by
  unfold ScanlineOutputFile.write_pixels_incremental
  split_ifs
  · right; rfl
  · right; rfl
  · right; rfl
  · cases hv : f.header.validate_framebuffer_for_output fb with
    | ok val =>
      cases val
      simp only [hv]
      cases setErr with
      | some msg => right; rfl
      | none =>
        cases writeErr with
        | some msg => right; rfl
        | none => left; rfl
    | err e => simp only [hv]; right; trivial
    | panicked m => simp only [hv]; right; trivial

/-- C5: once any scanlines have been written (counter nonzero), every full-image
write_pixels call on the handle fails with the already-written protocol error; and once
the counter equals the image height, every write_pixels_incremental call fails with the
all-scanlines-written protocol error — no write succeeds from these terminal states,
whatever the framebuffer and whatever the native oracles report. -/
theorem C5_write_once_state_machine (f : ScanlineOutputFile) (fb : FrameBuffer)
    (setErr writeErr : Option String) :
    (0 < f.scanlines_written →
      (f.write_pixels fb setErr writeErr).result =
        .err (.Generic (.alreadyWritten f.scanlines_written))) ∧
    (f.scanlines_written = f.header.data_dimensions.2 →
      (f.write_pixels_incremental fb setErr writeErr).result =
        .err (.Generic .allScanlinesWritten)) := by
  constructor
  · intro hpos
    unfold ScanlineOutputFile.write_pixels
    rw [if_pos (Nat.pos_iff_ne_zero.mp hpos)]
  · intro heq
    unfold ScanlineOutputFile.write_pixels_incremental
    rw [if_pos heq]

/-- Witness for C5 at concrete states: a file with one scanline written rejects a full
write, and a file whose counter equals the image height rejects an incremental write. -/
theorem C5_write_once_state_machine_witness :
    (fileOne.write_pixels fbR2x2 none none).result =
      .err (.Generic (.alreadyWritten 1)) ∧
    (fileDone.write_pixels_incremental fbR2x1 none none).result =
      .err (.Generic .allScanlinesWritten) :=
  ⟨(C5_write_once_state_machine fileOne fbR2x2 none none).1 (by decide),
   (C5_write_once_state_machine fileDone fbR2x1 none none).2 (by decide)⟩

/-- C6: whenever write_pixels or write_pixels_incremental does not succeed — failed
pre-delegation validation or a reported native failure — the scanlines_written counter
after the call equals its value before the call. -/
theorem C6_failed_write_leaves_counter (f : ScanlineOutputFile) (fb : FrameBuffer)
    (setErr writeErr : Option String) :
    ((f.write_pixels fb setErr writeErr).result.isOk = false →
      (f.write_pixels fb setErr writeErr).file.scanlines_written = f.scanlines_written) ∧
    ((f.write_pixels_incremental fb setErr writeErr).result.isOk = false →
      (f.write_pixels_incremental fb setErr writeErr).file.scanlines_written =
        f.scanlines_written) := by
  constructor
  · intro hfail
    rcases write_pixels_ok_or_unchanged f fb setErr writeErr with hok | hunch
    · rw [hok] at hfail; cases hfail
    · rw [hunch]
  · intro hfail
    rcases write_pixels_incremental_ok_or_unchanged f fb setErr writeErr with hok | hunch
    · rw [hok] at hfail; cases hfail
    · rw [hunch]

/-- Witness for C6: a full write rejected for prior writes, and an incremental write
rejected by a native failure, both leave the counter at its prior value. -/
theorem C6_failed_write_leaves_counter_witness :
    (fileOne.write_pixels fbR2x2 none none).file.scanlines_written = 1 ∧
    (fileFresh.write_pixels_incremental fbR2x1 none (some "io failure")).file.scanlines_written
      = 0 :=
  ⟨(C6_failed_write_leaves_counter fileOne fbR2x2 none none).1 (by decide),
   (C6_failed_write_leaves_counter fileFresh fbR2x1 none (some "io failure")).2 (by decide)⟩

/-- C7 counterexample: at starting_scanline 2 on a 2-scanline-tall image, the claim says
read_pixels_partial returns a structured error; the code instead hits the leading
assert! and panics — the outcome is a panic, not a returned Err. -/
theorem C7_counterexample :
    (inputFile2x2.read_pixels_partial 2 fbmEmpty2x2 none none).result =
      .panicked .readPastLastScanline ∧
    (inputFile2x2.read_pixels_partial 2 fbmEmpty2x2 none none).result.isErr = false := by
  decide

/-- C7 amended: for every starting_scanline at or past the image height,
read_pixels_partial panics through the leading assert (message: Cannot start reading
past last scanline.) before invoking any native entry point; it does not return a
structured error. -/
theorem C7_read_past_end_panics (f : InputFile) (s : Nat) (fb : FrameBufferMut)
    (setErr readErr : Option String) (hs : f.header.data_dimensions.2 ≤ s) :
    (f.read_pixels_partial s fb setErr readErr).result = .panicked .readPastLastScanline ∧
    (f.read_pixels_partial s fb setErr readErr).native_trace = [] := by
  unfold InputFile.read_pixels_partial
  rw [if_pos (not_lt.mpr hs)]
  exact ⟨rfl, rfl⟩

/-- Witness for the amended C7 at a concrete out-of-range scanline. -/
theorem C7_read_past_end_panics_witness :
    (inputFile2x2.read_pixels_partial 3 fbmEmpty2x2 none none).result =
      .panicked .readPastLastScanline ∧
    (inputFile2x2.read_pixels_partial 3 fbmEmpty2x2 none none).native_trace = [] :=
  C7_read_past_end_panics inputFile2x2 3 fbmEmpty2x2 none none (by decide)

/-- C10: set_global_thread_count rejects a count above the platform c_int maximum with
an error and without invoking the native library; any other count is forwarded to the
native entry point, and the call succeeds exactly when the native call succeeds. -/
theorem C10_set_global_thread_count (n : Nat) (nativeErr : Option String) :
    (c_int_max_value < n →
      set_global_thread_count n nativeErr = (.err (.Generic .threadCountTooHigh), false)) ∧
    (n ≤ c_int_max_value →
      (set_global_thread_count n nativeErr).2 = true ∧
      ((set_global_thread_count n nativeErr).1 = .ok () ↔ nativeErr = none)) := by
  constructor
  · intro hgt
    unfold set_global_thread_count
    rw [if_pos hgt]
  · intro hle
    unfold set_global_thread_count
    rw [if_neg (not_lt.mpr hle)]
    cases nativeErr with
    | none => exact ⟨rfl, by simp⟩
    | some msg => refine ⟨rfl, ?_⟩; simp

/-- Witness for C10: one count just above c_int::max_value() (rejected locally), one
small count with native success, one small count with a native failure. -/
theorem C10_set_global_thread_count_witness :
    set_global_thread_count (2 ^ 31) none =
      (.err (.Generic .threadCountTooHigh), false) ∧
    ((set_global_thread_count 4 none).2 = true ∧
      ((set_global_thread_count 4 none).1 = .ok () ↔ (none : Option String) = none)) ∧
    ((set_global_thread_count 4 (some "pool failure")).2 = true ∧
      ((set_global_thread_count 4 (some "pool failure")).1 = .ok () ↔
        (some "pool failure" : Option String) = none)) :=
  ⟨(C10_set_global_thread_count (2 ^ 31) none).1 (by decide),
   (C10_set_global_thread_count 4 none).2 (by decide),
   (C10_set_global_thread_count 4 (some "pool failure")).2 (by decide)⟩

lemma find_mapInsert {α : Type} (m : List (String × α)) (k : String) (v : α) :
    ((mapInsert m k v).find? (fun p => decide (p.1 = k))).map Prod.snd = some v := by
  unfold mapInsert
  split_ifs with h
  · induction m with
    | nil => cases h
    | cons q rest ih =>
      by_cases hq : q.1 = k
      · simp [List.find?, hq]
      · have hrest : rest.any (fun p => decide (p.1 = k)) = true := by
          rcases List.any_eq_true.mp h with ⟨p, hp, hpk⟩
          rcases List.mem_cons.mp hp with rfl | hp2
          · exact absurd (of_decide_eq_true hpk) hq
          · exact List.any_eq_true.mpr ⟨p, hp2, hpk⟩
        simpa [List.find?, hq] using ih hrest
  · induction m with
    | nil => simp [List.find?]
    | cons q rest ih =>
      have hq : ¬ q.1 = k := by
        intro hqk
        exact h (List.any_eq_true.mpr ⟨q, List.mem_cons_self q rest, decide_eq_true hqk⟩)
      have hrest : ¬ rest.any (fun p => decide (p.1 = k)) = true := by
        intro hany
        rcases List.any_eq_true.mp hany with ⟨p, hp, hpk⟩
        exact h (List.any_eq_true.mpr ⟨p, List.mem_cons_of_mem q hp, hpk⟩)
      simpa [List.find?, hq] using ih hrest

/-- C1: for a file whose counter w is below the image height H, a successful
write_pixels_incremental call with a framebuffer of height h passes exactly
min(h, H - w) scanlines to the native write entry point and advances the counter by
exactly that amount (on success the guard guarantees h is at most H - w, so the
minimum equals h); and once the counter equals H, every incremental write fails. -/
theorem C1_incremental_write_counts (f : ScanlineOutputFile) (fb : FrameBuffer)
    (setErr writeErr : Option String) :
    (f.scanlines_written < f.header.data_dimensions.2 →
      (f.write_pixels_incremental fb setErr writeErr).result = .ok () →
      (f.write_pixels_incremental fb setErr writeErr).write_arg =
        some (min fb.dimensions.2 (f.header.data_dimensions.2 - f.scanlines_written)) ∧
      (f.write_pixels_incremental fb setErr writeErr).file.scanlines_written =
        f.scanlines_written +
          min fb.dimensions.2 (f.header.data_dimensions.2 - f.scanlines_written)) ∧
    (f.scanlines_written = f.header.data_dimensions.2 →
      (f.write_pixels_incremental fb setErr writeErr).result =
        .err (.Generic .allScanlinesWritten)) := by
  constructor
  · intro hlt hok
    have hne : f.scanlines_written ≠ f.header.data_dimensions.2 := Nat.ne_of_lt hlt
    unfold ScanlineOutputFile.write_pixels_incremental at hok ⊢
    rw [if_neg hne] at hok ⊢
    by_cases h2 : fb.dimensions.2 > f.header.data_dimensions.2 - f.scanlines_written
    · rw [if_pos h2] at hok; cases hok
    · rw [if_neg h2] at hok ⊢
      by_cases h3 : fb.dimensions.1 ≠ f.header.data_dimensions.1
      · rw [if_pos h3] at hok; cases hok
      · rw [if_neg h3] at hok ⊢
        have hmin : min fb.dimensions.2 (f.header.data_dimensions.2 - f.scanlines_written) =
            fb.dimensions.2 := Nat.min_eq_left (Nat.le_of_not_lt h2)
        cases hv : f.header.validate_framebuffer_for_output fb with
        | ok val =>
          cases val
          rw [hv] at hok
          cases setErr with
          | some msg => simp at hok
          | none =>
            cases writeErr with
            | some msg => simp at hok
            | none => exact ⟨by rw [hmin], by rw [hmin]⟩
        | err e => rw [hv] at hok; simp at hok
        | panicked m => rw [hv] at hok; simp at hok
  · intro heq
    unfold ScanlineOutputFile.write_pixels_incremental
    rw [if_pos heq]

/-- Witness for C1: a half-height chunk against a fresh 2-scanline file writes
min(1, 2) = 1 scanline and advances the counter to 0 + 1; a file whose counter equals
the height rejects a further incremental write. -/
theorem C1_incremental_write_counts_witness :
    ((fileFresh.write_pixels_incremental fbR2x1 none none).write_arg = some (min 1 2) ∧
     (fileFresh.write_pixels_incremental fbR2x1 none none).file.scanlines_written =
       0 + min 1 2) ∧
    (fileDone.write_pixels_incremental fbR2x1 none none).result =
      .err (.Generic .allScanlinesWritten) :=
  ⟨(C1_incremental_write_counts fileFresh fbR2x1 none none).1 (by decide) (by decide),
   (C1_incremental_write_counts fileDone fbR2x1 none none).2 (by decide)⟩

/-- C8: the two insert_channel operations signal a size-mismatch failure (a panic in
this revision) exactly when the element count of the supplied buffer differs from
width * height of the frame buffer; when it is equal, the call succeeds and the channel
is registered under the given name with the pixel type of the buffer elements and
sampling (1, 1). -/
theorem C8_insert_channel_size_check (fb : FrameBuffer) (m : FrameBufferMut)
    (name : String) (dataLen : Nat) (ty : PixelType) :
    ((fb.insert_channel name dataLen ty).isPanicked = true ↔
      dataLen ≠ fb.dimensions.1 * fb.dimensions.2) ∧
    (dataLen = fb.dimensions.1 * fb.dimensions.2 →
      fb.insert_channel name dataLen ty =
        .ok { fb with channels := mapInsert fb.channels name ⟨ty, 1, 1, true⟩ } ∧
      FrameBuffer.getChannel
        { fb with channels := mapInsert fb.channels name ⟨ty, 1, 1, true⟩ } name =
        some ⟨ty, 1, 1, true⟩) ∧
    ((m.insert_channel name dataLen ty).isPanicked = true ↔
      dataLen ≠ m.dimensions.1 * m.dimensions.2) ∧
    (dataLen = m.dimensions.1 * m.dimensions.2 →
      m.insert_channel name dataLen ty =
        .ok ⟨{ m.frame_buffer with
               channels := mapInsert m.frame_buffer.channels name ⟨ty, 1, 1, true⟩ }⟩ ∧
      FrameBufferMut.getChannel
        ⟨{ m.frame_buffer with
           channels := mapInsert m.frame_buffer.channels name ⟨ty, 1, 1, true⟩ }⟩ name =
        some ⟨ty, 1, 1, true⟩) := by
  refine ⟨?_, ?_, ?_, ?_⟩
  · unfold FrameBuffer.insert_channel
    split_ifs with h
    · simp [RunResult.isPanicked, h]
    · simp [RunResult.isPanicked, h]
  · intro heq
    refine ⟨?_, ?_⟩
    · unfold FrameBuffer.insert_channel
      rw [if_neg (by simp [heq])]
    · unfold FrameBuffer.getChannel
      exact find_mapInsert fb.channels name ⟨ty, 1, 1, true⟩
  · unfold FrameBufferMut.insert_channel
    split_ifs with h
    · simp [RunResult.isPanicked, h]
    · simp [RunResult.isPanicked, h]
  · intro heq
    refine ⟨?_, ?_⟩
    · unfold FrameBufferMut.insert_channel
      rw [if_neg (by simp [heq])]
    · unfold FrameBufferMut.getChannel FrameBuffer.getChannel
      exact find_mapInsert m.frame_buffer.channels name ⟨ty, 1, 1, true⟩

/-- Witness for C8: on a 2 x 2 frame buffer, a 3-element buffer is rejected and a
4-element buffer registers the channel, for both the immutable and mutable variants. -/
theorem C8_insert_channel_size_check_witness :
    (fbEmpty2x2.insert_channel "G" 3 .FLOAT).isPanicked = true ∧
    (fbEmpty2x2.insert_channel "G" 4 .FLOAT =
        .ok { fbEmpty2x2 with
              channels := mapInsert fbEmpty2x2.channels "G" ⟨.FLOAT, 1, 1, true⟩ } ∧
      FrameBuffer.getChannel
        { fbEmpty2x2 with
          channels := mapInsert fbEmpty2x2.channels "G" ⟨.FLOAT, 1, 1, true⟩ } "G" =
        some ⟨.FLOAT, 1, 1, true⟩) ∧
    (fbmEmpty2x2.insert_channel "G" 3 .FLOAT).isPanicked = true ∧
    (fbmEmpty2x2.insert_channel "G" 4 .FLOAT =
        .ok ⟨{ fbmEmpty2x2.frame_buffer with
               channels := mapInsert fbmEmpty2x2.frame_buffer.channels "G"
                 ⟨.FLOAT, 1, 1, true⟩ }⟩ ∧
      FrameBufferMut.getChannel
        ⟨{ fbmEmpty2x2.frame_buffer with
           channels := mapInsert fbmEmpty2x2.frame_buffer.channels "G"
             ⟨.FLOAT, 1, 1, true⟩ }⟩ "G" =
        some ⟨.FLOAT, 1, 1, true⟩) :=
  ⟨(C8_insert_channel_size_check fbEmpty2x2 fbmEmpty2x2 "G" 3 .FLOAT).1.mpr (by decide),
   (C8_insert_channel_size_check fbEmpty2x2 fbmEmpty2x2 "G" 4 .FLOAT).2.1 (by decide),
   (C8_insert_channel_size_check fbEmpty2x2 fbmEmpty2x2 "G" 3 .FLOAT).2.2.1.mpr (by decide),
   (C8_insert_channel_size_check fbEmpty2x2 fbmEmpty2x2 "G" 4 .FLOAT).2.2.2 (by decide)⟩

/-- C4: during validation before a read, a shared channel with mismatching pixel type
or subsampling makes validate_framebuffer_for_input fail with a mismatch error naming
that channel and both conflicting values; validation succeeds exactly when no shared
channel mismatches, so channels present only in the header and channels present only
in the frame buffer never cause a validation error. -/
theorem C4_input_validation (h : Header) (fb : FrameBufferMut) :
    (h.validate_framebuffer_for_input fb = .ok () ↔
      h.channels.any (sharedMismatchInput fb) = false) ∧
    (∀ e, h.validate_framebuffer_for_input fb = .err e →
      ∃ p ∈ h.channels, ∃ fbc, fb.getChannel p.1 = some fbc ∧
        ((fbc.pixel_type ≠ p.2.pixel_type ∧
           e = .Generic (.channelTypeMismatch p.1 p.2.pixel_type fbc.pixel_type)) ∨
         (fbc.pixel_type = p.2.pixel_type ∧
           (fbc.x_sampling ≠ p.2.x_sampling ∨ fbc.y_sampling ≠ p.2.y_sampling) ∧
           e = .Generic (.channelSamplingMismatch p.1 p.2.x_sampling p.2.y_sampling
             fbc.x_sampling fbc.y_sampling)))) :=
  ⟨validateChannelsInput_ok_iff fb h.channels,
   fun e he => validateChannelsInput_err fb h.channels e he⟩

/-- Witness for C4: a frame buffer with no channels and one declaring only an extra
channel both validate cleanly against a header declaring R (one-sided channels are
tolerated); a frame buffer declaring R with the wrong pixel type produces the
type-mismatch error naming R and both conflicting types. -/
theorem C4_input_validation_witness :
    header2x2R.validate_framebuffer_for_input fbmEmpty2x2 = .ok () ∧
    header2x2R.validate_framebuffer_for_input fbmZ2x2 = .ok () ∧
    (∃ p ∈ header2x2R.channels, ∃ fbc, fbmH2x2.getChannel p.1 = some fbc ∧
      ((fbc.pixel_type ≠ p.2.pixel_type ∧
         Error.Generic (.channelTypeMismatch "R" .FLOAT .HALF) =
           .Generic (.channelTypeMismatch p.1 p.2.pixel_type fbc.pixel_type)) ∨
       (fbc.pixel_type = p.2.pixel_type ∧
         (fbc.x_sampling ≠ p.2.x_sampling ∨ fbc.y_sampling ≠ p.2.y_sampling) ∧
         Error.Generic (.channelTypeMismatch "R" .FLOAT .HALF) =
           .Generic (.channelSamplingMismatch p.1 p.2.x_sampling p.2.y_sampling
             fbc.x_sampling fbc.y_sampling)))) :=
  ⟨(C4_input_validation header2x2R fbmEmpty2x2).1.mpr (by decide),
   (C4_input_validation header2x2R fbmZ2x2).1.mpr (by decide),
   (C4_input_validation header2x2R fbmH2x2).2
     (.Generic (.channelTypeMismatch "R" .FLOAT .HALF)) (by decide)⟩

/-- C2 counterexample: header2x2R declares channel R and the 1 x 1 empty framebuffer
lacks it, so the premise of the claim holds; but write_pixels returns the geometry
error from the earlier dimension check, which names no channel — the claim that the
returned error names the offending channel fails for this Header/FrameBuffer pair. -/
theorem C2_counterexample :
    header2x2R.channels.any (offendingOutput fbEmpty1x1) = true ∧
    (fileFresh.write_pixels fbEmpty1x1 none none).result =
      .err (.Generic (.sizeMismatch 1 1 2 2)) ∧
    (fileFresh.write_pixels fbEmpty1x1 none none).result.errName = none := by
  decide

/-- C2 amended: if some channel declared by the Header is absent from the FrameBuffer
or differs in pixel type or subsampling, write_pixels and write_pixels_incremental
always return an error before invoking any native entry point; the error names an
offending channel whenever the checks that precede channel validation pass (for
write_pixels: nothing written yet and matching dimensions and origin; for
write_pixels_incremental: scanlines remain, the chunk fits and the width matches). -/
theorem C2_missing_or_mismatched_channel (f : ScanlineOutputFile) (fb : FrameBuffer)
    (setErr writeErr : Option String)
    (hoff : f.header.channels.any (offendingOutput fb) = true) :
    ((f.write_pixels fb setErr writeErr).result.isErr = true ∧
     (f.write_pixels fb setErr writeErr).native_trace = []) ∧
    ((f.write_pixels_incremental fb setErr writeErr).result.isErr = true ∧
     (f.write_pixels_incremental fb setErr writeErr).native_trace = []) ∧
    (f.scanlines_written = 0 → f.header.data_dimensions = fb.dimensions →
      f.header.data_origin = fb.origin →
      f.header.channels.any (fun p => offendingOutput fb p &&
        decide ((f.write_pixels fb setErr writeErr).result.errName = some p.1)) = true) ∧
    (f.scanlines_written ≠ f.header.data_dimensions.2 →
      ¬ fb.dimensions.2 > f.header.data_dimensions.2 - f.scanlines_written →
      fb.dimensions.1 = f.header.data_dimensions.1 →
      f.header.channels.any (fun p => offendingOutput fb p &&
        decide ((f.write_pixels_incremental fb setErr writeErr).result.errName =
          some p.1)) = true) := by
  obtain ⟨e, he, hany⟩ := validateChannelsOutput_err_names fb f.header.channels hoff
  refine ⟨?_, ?_, ?_, ?_⟩
  · unfold ScanlineOutputFile.write_pixels
    split_ifs
    · exact ⟨rfl, rfl⟩
    · exact ⟨rfl, rfl⟩
    · exact ⟨rfl, rfl⟩
    · simp only [Header.validate_framebuffer_for_output, he]
      exact ⟨rfl, trivial⟩
  · unfold ScanlineOutputFile.write_pixels_incremental
    split_ifs
    · exact ⟨rfl, rfl⟩
    · exact ⟨rfl, rfl⟩
    · exact ⟨rfl, rfl⟩
    · simp only [Header.validate_framebuffer_for_output, he]
      exact ⟨rfl, trivial⟩
  · intro h0 hdim horig
    have hres : (f.write_pixels fb setErr writeErr).result = .err e := by
      unfold ScanlineOutputFile.write_pixels
      rw [if_neg (by simp [h0]), if_neg (by simp [hdim]), if_neg (by simp [horig])]
      simp only [Header.validate_framebuffer_for_output, he]
    simp only [hres, RunResult.errName]
    exact hany
  · intro hne hfit hwidth
    have hres : (f.write_pixels_incremental fb setErr writeErr).result = .err e := by
      unfold ScanlineOutputFile.write_pixels_incremental
      rw [if_neg hne, if_neg hfit, if_neg (by simp [hwidth])]
      simp only [Header.validate_framebuffer_for_output, he]
    simp only [hres, RunResult.errName]
    exact hany

/-- Witness for the amended C2: a 2 x 2 framebuffer with no channels against
header2x2R — every pre-validation check passes, both write paths return an error
before any native call, and the error names the missing channel R. -/
theorem C2_missing_or_mismatched_channel_witness :
    ((fileFresh.write_pixels fbEmpty2x2 none none).result.isErr = true ∧
     (fileFresh.write_pixels fbEmpty2x2 none none).native_trace = []) ∧
    ((fileFresh.write_pixels_incremental fbEmpty2x2 none none).result.isErr = true ∧
     (fileFresh.write_pixels_incremental fbEmpty2x2 none none).native_trace = []) ∧
    header2x2R.channels.any (fun p => offendingOutput fbEmpty2x2 p &&
      decide ((fileFresh.write_pixels fbEmpty2x2 none none).result.errName =
        some p.1)) = true ∧
    header2x2R.channels.any (fun p => offendingOutput fbEmpty2x2 p &&
      decide ((fileFresh.write_pixels_incremental fbEmpty2x2 none none).result.errName =
        some p.1)) = true := by
  have h := C2_missing_or_mismatched_channel fileFresh fbEmpty2x2 none none (by decide)
  exact ⟨h.1, h.2.1, h.2.2.1 rfl (by decide) (by decide),
    h.2.2.2 (by decide) (by decide) (by decide)⟩

/-- C3 counterexample: the framebuffer declares a channel Z that the header lacks, yet
a full write from a fresh handle succeeds and invokes both native entry points — the
operation does not fail before touching the native codec. -/
theorem C3_counterexample :
    fbRZ2x2.getChannel "Z" = some chF ∧
    header2x2R.get_channel "Z" = none ∧
    (fileFresh.write_pixels fbRZ2x2 none none).result = .ok () ∧
    (fileFresh.write_pixels fbRZ2x2 none none).native_trace =
      ["CEXR_OutputFile_set_framebuffer", "CEXR_OutputFile_write_pixels"] := by
  decide

/-- C3 amended: pre-delegation validation for writing checks only the channels the
Header declares; a FrameBuffer channel whose name is absent from the Header is not
rejected.  Whenever the write-state and geometry checks pass, every Header-declared
channel is present with matching type and subsampling, and the native calls succeed,
write_pixels returns success and invokes the native entry points — regardless of any
extra FrameBuffer channels. -/
theorem C3_extra_fb_channel_not_rejected (f : ScanlineOutputFile) (fb : FrameBuffer)
    (hfresh : f.scanlines_written = 0)
    (hdim : f.header.data_dimensions = fb.dimensions)
    (horig : f.header.data_origin = fb.origin)
    (hok : f.header.channels.any (offendingOutput fb) = false) :
    (f.write_pixels fb none none).result = .ok () ∧
    (f.write_pixels fb none none).native_trace ≠ [] := by
  have hval : validateChannelsOutput fb f.header.channels = .ok () :=
    (validateChannelsOutput_ok_iff fb f.header.channels).mpr hok
  unfold ScanlineOutputFile.write_pixels
  rw [if_neg (by simp [hfresh]), if_neg (by simp [hdim]), if_neg (by simp [horig])]
  simp only [Header.validate_framebuffer_for_output, hval]
  exact ⟨trivial, by simp⟩

/-- Witness for the amended C3: the framebuffer carrying the extra channel Z passes
every check and the write reaches the native codec. -/
theorem C3_extra_fb_channel_not_rejected_witness :
    (fileFresh.write_pixels fbRZ2x2 none none).result = .ok () ∧
    (fileFresh.write_pixels fbRZ2x2 none none).native_trace ≠ [] :=
  C3_extra_fb_channel_not_rejected fileFresh fbRZ2x2 rfl (by decide) (by decide) (by decide)

/-- Slice description produced by add_slice on a 1 x 1 buffer of 4-byte FLOAT
elements. -/
def descF : lib_rs.SliceDescription := ⟨.FLOAT, (1, 1), 0, (4, 4), (false, false)⟩

/-- Slice description produced by add_slice on a 1 x 1 buffer of 4-byte UINT
elements. -/
def descU : lib_rs.SliceDescription := ⟨.UINT, (1, 1), 0, (4, 4), (false, false)⟩

/-- State of the lib_rs frame buffer after registering channel R once as FLOAT. -/
def fbL1 : lib_rs.FrameBuffer := ⟨(1, 1), [("R", (0, descF))], 1⟩

/-- C9 counterexample: with channel R already registered, a second add_slice under the
name R is not rejected — it succeeds and silently replaces the existing entry (the
channel map afterwards holds the second description under R and no duplicate). -/
theorem C9_counterexample :
    (lib_rs.FrameBuffer.new 1 1).add_slice 1 4 .FLOAT "R" = .ok fbL1 ∧
    fbL1.add_slice 1 4 .UINT "R" =
      .ok (⟨(1, 1), [("R", (1, descU))], 2⟩ : lib_rs.FrameBuffer) := by
  decide

/-- C9 amended: after any sequence of channel-insertion operations the registered
channel names are pairwise distinct, because the registry is a map keyed by name —
but an insert under an already-registered name is rejected (by panic) only by
add_raw_slice; add_slice silently replaces the existing entry, leaving the key set
unchanged, rather than rejecting the insert. -/
theorem C9_no_duplicate_names :
    (∀ (w h : Nat) (ops : List lib_rs.FbOp),
      (((lib_rs.applyOps (lib_rs.FrameBuffer.new w h) ops).channels).map Prod.fst).Nodup) ∧
    (∀ (fb : lib_rs.FrameBuffer) (descs : List (String × lib_rs.SliceDescription)),
      descs.any (fun d => fb.channels.any (fun p => decide (p.1 = d.1))) = true →
      fb.add_raw_slice descs = .panicked .duplicateChannelName) ∧
    (∀ (fb fb2 : lib_rs.FrameBuffer) (dataLen elemSize : Nat) (ty : PixelType)
        (name : String),
      fb.channels.any (fun p => decide (p.1 = name)) = true →
      fb.add_slice dataLen elemSize ty name = .ok fb2 →
      fb2.channels.map Prod.fst = fb.channels.map Prod.fst) := by
  refine ⟨?_, ?_, ?_⟩
  · intro w h ops
    exact lib_rs.applyOps_keys_nodup ops (lib_rs.FrameBuffer.new w h)
      (by simp [lib_rs.FrameBuffer.new])
  · intro fb descs hdup
    unfold lib_rs.FrameBuffer.add_raw_slice
    rw [if_pos hdup]
  · intro fb fb2 dataLen elemSize ty name hmem hok
    unfold lib_rs.FrameBuffer.add_slice at hok
    split_ifs at hok with hlt
    unfold lib_rs.FrameBuffer.add_interleaved_slice at hok
    rw [if_neg (by simp), if_neg (by simp [Nat.div_one, hlt])] at hok
    injection hok with hok2
    rw [← hok2]
    simp only [lib_rs.interleavedDescs, lib_rs.insertAll]
    rw [mapInsert_map_fst]
    rw [if_pos hmem]

/-- Witness for the amended C9: the two-step duplicate-insert run keeps the key list
duplicate-free, add_raw_slice panics on the duplicate name R, and the successful
duplicate add_slice leaves the key set unchanged. -/
theorem C9_no_duplicate_names_witness :
    (((lib_rs.applyOps (lib_rs.FrameBuffer.new 1 1)
        [lib_rs.FbOp.addSlice 1 4 .FLOAT "R",
         lib_rs.FbOp.addSlice 1 4 .UINT "R"]).channels).map Prod.fst).Nodup ∧
    fbL1.add_raw_slice [("R", descU)] = .panicked .duplicateChannelName ∧
    (⟨(1, 1), [("R", (1, descU))], 2⟩ : lib_rs.FrameBuffer).channels.map Prod.fst =
      fbL1.channels.map Prod.fst := by
  have h := C9_no_duplicate_names
  exact ⟨h.1 1 1 _, h.2.1 fbL1 [("R", descU)] (by decide),
    h.2.2 fbL1 ⟨(1, 1), [("R", (1, descU))], 2⟩ 1 4 .UINT "R" (by decide) (by decide)⟩
